import Mathlib

/-!
# PGAbstractType::DatumToValue

A shallow embedding of `src/ports/postgres/dbconnector/PGAbstractType.cpp`
(MADlib's PostgreSQL connector): the conversion of a PostgreSQL `Datum`
together with its type `Oid` into a `ConcreteType` object.

The PostgreSQL backend (catalog lookups, detoasting, the `Datum` access
macros, the backend's memory) is not part of the file; it is a parameter of
the embedding, the record `Engine`.  A backend call that can leave through
`ereport(ERROR)` returns `Except Fault _`.

The file is compiled either with assertions or without them (`NDEBUG`); the
build is a parameter of the function, the flag `NDEBUG`.
-/

namespace madlib

namespace dbconnector

/-! ## PostgreSQL types the function handles -/

/-- PostgreSQL `Oid`: an unsigned integer naming a type of the catalog. -/
abbrev Oid := Nat

/-- PostgreSQL `Datum`: a machine word, a value or a pointer to one. -/
abbrev Datum := Nat

/-- PostgreSQL `HeapTupleHeader`: a pointer to the header of a tuple. -/
abbrev HeapTupleHeader := Nat

/-- An `ArrayType *`: the address of an array object in backend memory. -/
abbrev ArrayPtr := Nat

/-- The C null pointer as a tuple header, the initial value of `pgTuple`. -/
def NULL : Nat := 0

/-- The error data of a backend fault, raised with `ereport(ERROR, ...)`. -/
abbrev Fault := String

/-- `BOOLOID` of `catalog/pg_type.h`. -/
def BOOLOID : Oid := 16

/-- `INT8OID` of `catalog/pg_type.h`. -/
def INT8OID : Oid := 20

/-- `INT2OID` of `catalog/pg_type.h`. -/
def INT2OID : Oid := 21

/-- `INT4OID` of `catalog/pg_type.h`. -/
def INT4OID : Oid := 23

/-- `FLOAT4OID` of `catalog/pg_type.h`. -/
def FLOAT4OID : Oid := 700

/-- `FLOAT8OID` of `catalog/pg_type.h`. -/
def FLOAT8OID : Oid := 701

/-- The object an `ArrayType *` points to (`utils/array.h`): the header fields
the function reads, the dimension vector behind the header and the element
buffer.  An element of a `float8` array is held as its IEEE-754 binary64 bit
pattern. -/
structure ArrayType where
  /-- Field `ndim`, the number of dimensions. -/
  ndim : Int
  /-- Field `dataoffset`, zero when the array has no null bitmap. -/
  dataoffset : Int
  /-- Field `elemtype`, the type of the elements. -/
  elemtype : Oid
  /-- The `int` vector `ARR_DIMS` points to, the extent of each dimension. -/
  dims : List Int
  /-- The element buffer. -/
  data : List Nat
deriving DecidableEq, Repr

/-- Backend memory, as far as the function reads it: the array object at each
address. -/
abbrev Memory := ArrayPtr → ArrayType

/-- The PostgreSQL backend the function runs in.  The four calls made inside
`PG_TRY` can raise a fault; the `DatumGet...` macros of `postgres.h` used on
scalars cannot.  A `float4`/`float8` value is held as its IEEE-754 bit
pattern. -/
structure Engine where
  /-- `type_is_rowtype` of `utils/lsyscache.h`. -/
  type_is_rowtype : Oid → Except Fault Bool
  /-- `type_is_array` of `utils/lsyscache.h`. -/
  type_is_array : Oid → Except Fault Bool
  /-- `DatumGetHeapTupleHeader`, which detoasts the datum. -/
  DatumGetHeapTupleHeader : Datum → Except Fault HeapTupleHeader
  /-- `DatumGetArrayTypeP`, which detoasts the datum. -/
  DatumGetArrayTypeP : Datum → Except Fault ArrayPtr
  /-- Backend memory. -/
  mem : Memory
  /-- `DatumGetBool`. -/
  DatumGetBool : Datum → Bool
  /-- `DatumGetInt16`. -/
  DatumGetInt16 : Datum → Int
  /-- `DatumGetInt32`. -/
  DatumGetInt32 : Datum → Int
  /-- `DatumGetInt64`. -/
  DatumGetInt64 : Datum → Int
  /-- `DatumGetFloat4`. -/
  DatumGetFloat4 : Datum → Nat
  /-- `DatumGetFloat8`. -/
  DatumGetFloat8 : Datum → Nat

/-- `ARR_NDIM(a)`, that is `(a)->ndim`. -/
def ARR_NDIM (m : Memory) (a : ArrayPtr) : Int := (m a).ndim

/-- `ARR_HASNULL(a)`, that is `((a)->dataoffset != 0)`. -/
def ARR_HASNULL (m : Memory) (a : ArrayPtr) : Bool := (m a).dataoffset != 0

/-- `ARR_ELEMTYPE(a)`, that is `(a)->elemtype`. -/
def ARR_ELEMTYPE (m : Memory) (a : ArrayPtr) : Oid := (m a).elemtype

/-- `ARR_DIMS(a)[i]`: entry `i` of the dimension vector.  The function reads
entry 0 only, and only of an array with `ndim == 1`, whose vector has that
entry; an entry the vector does not have reads as 0 here. -/
def ARR_DIMS (m : Memory) (a : ArrayPtr) (i : Nat) : Int := (m a).dims.getD i 0

/-! ## The DBAL objects the function builds -/

/-- `AbstractHandle::MemoryController`: who manages the memory behind a
handle. -/
inductive MemoryController where
  | kLocal
  | kGlobal
  | kSelf
deriving DecidableEq, Repr

/-- Modelled from the spec: `PGArrayHandle` (`dbconnector/PGArrayHandle.hpp`),
the array ownership handle: a reference to the array object it was
constructed over and the scope flag given to the constructor.  Constructing
it copies nothing. -/
structure PGArrayHandle where
  /-- The array the handle was constructed over. -/
  array : ArrayPtr
  /-- The scope flag of the handle. -/
  controller : MemoryController
deriving DecidableEq, Repr

/-- Modelled from the spec: `Array<double>`, the writable array view: a
reference to an ownership handle and a one-dimensional shape, the element
count given as `boost::extents[n]`. -/
structure Array_double where
  /-- The handle the view was constructed with. -/
  memoryHandle : PGArrayHandle
  /-- The extent of the view, its number of elements. -/
  extent : Int
deriving DecidableEq, Repr

/-- Modelled from the spec: `Array_const<double>`, the read-only array view,
with the same parts as `Array_double`. -/
structure Array_const_double where
  /-- The handle the view was constructed with. -/
  memoryHandle : PGArrayHandle
  /-- The extent of the view, its number of elements. -/
  extent : Int
deriving DecidableEq, Repr

/-- The value an `n`-bit two's-complement integer object holds when it is
initialised from `x`. -/
def wrapSigned (n : Nat) (x : Int) : Int :=
  (x + 2 ^ (n - 1)) % 2 ^ n - 2 ^ (n - 1)

/-- The objects behind an `AbstractTypeSPtr`: one constructor for each class
the function instantiates, holding the value the object was constructed
from. -/
inductive AbstractType where
  /-- `PGType<HeapTupleHeader>`. -/
  | tuple (h : HeapTupleHeader)
  /-- `ConcreteType<Array<double> >`. -/
  | array (a : Array_double)
  /-- `ConcreteType<Array_const<double> >`. -/
  | array_const (a : Array_const_double)
  /-- `ConcreteType<bool>`. -/
  | bool (b : Bool)
  /-- `ConcreteType<int16_t>`. -/
  | int16 (v : Int)
  /-- `ConcreteType<int32_t>`. -/
  | int32 (v : Int)
  /-- `ConcreteType<int64_t>`. -/
  | int64 (v : Int)
  /-- `ConcreteType<float>`, the value as its binary32 bit pattern. -/
  | float (bits : Nat)
  /-- `ConcreteType<double>`, the value as its binary64 bit pattern. -/
  | double (bits : Nat)
deriving DecidableEq, Repr

/-- The ways a call of the function can end. -/
inductive Outcome where
  /-- The call returns an `AbstractTypeSPtr`; `none` is the empty pointer. -/
  | returned (p : Option AbstractType)
  /-- The call throws `std::invalid_argument` with the given message. -/
  | invalid_argument (what : String)
  /-- A `BOOST_ASSERT_MSG` of the call fails, with the given message. -/
  | assertion_failed (msg : String)
  /-- The call reads through a null `ArrayType *`: undefined behaviour, in
  practice the crash of the backend process. -/
  | null_dereference
deriving DecidableEq, Repr

/-- Modelled from the spec: assignment of `x` to element `i` of a writable
view (`Array<double>`, not under src/).  The view mutates in place: the
element is written in the buffer of the array object the handle of the view
refers to, and nothing else changes.  `none` when `i` is outside the view. -/
def Array_double.write (a : Array_double) (i : Nat) (x : Nat) (m : Memory) : Option Memory :=
  if (i : Int) < a.extent then
    some (fun q =>
      if q = a.memoryHandle.array then { m q with data := (m q).data.set i x } else m q)
  else none

/-! ## The function -/

/-- The local variables declared at the top of the function.  `pgTuple` is
only stored by the function, so its null value is the address `NULL`;
`pgArray` is read through, so its null value `none` is kept apart from the
addresses `DatumGetArrayTypeP` returns, which are never null. -/
structure Locals where
  isTuple : Bool
  isArray : Bool
  pgTuple : HeapTupleHeader
  pgArray : Option ArrayPtr
  errorOccurred : Bool
deriving DecidableEq, Repr

/-- The initial values of the local variables (lines 29-33). -/
def Locals.init : Locals :=
  { isTuple := false, isArray := false, pgTuple := NULL, pgArray := none,
    errorOccurred := false }

/-- The block between `PG_TRY()` and `PG_CATCH()` (lines 36-42).  It returns
the local variables as they are when the block is left, and the fault when it
is left by one. -/
def tryBlock (eng : Engine) (inTypeID : Oid) (inDatum : Datum) (s : Locals) :
    Locals × Option Fault :=
  match eng.type_is_rowtype inTypeID with
  | .error f => (s, some f)
  | .ok r =>
    let s1 := { s with isTuple := r }
    match eng.type_is_array inTypeID with
    | .error f => (s1, some f)
    | .ok a =>
      let s2 := { s1 with isArray := a }
      if s2.isTuple then
        match eng.DatumGetHeapTupleHeader inDatum with
        | .error f => (s2, some f)
        | .ok h => ({ s2 with pgTuple := h }, none)
      else if s2.isArray then
        match eng.DatumGetArrayTypeP inDatum with
        | .error f => (s2, some f)
        | .ok p => ({ s2 with pgArray := some p }, none)
      else (s2, none)

/-- The statement `PG_TRY(); ... PG_CATCH(); ... PG_END_TRY();` (lines
35-45): a fault of the block is caught, and the handler sets `errorOccurred`
and does nothing else.  Every backend call of the function that can raise a
fault is inside the block, so no fault leaves the function. -/
def guarded (eng : Engine) (inTypeID : Oid) (inDatum : Datum) (s : Locals) : Locals :=
  match tryBlock eng inTypeID inDatum s with
  | (s1, none) => s1
  | (s1, some _) => { s1 with errorOccurred := true }

/-- The branch `else if (isArray)` (lines 54-82).  `none` means that control
leaves the branch at its end, past the `switch` on the element type, without
a `return` or a `throw`. -/
def arrayBranch (eng : Engine) (inMemoryIsWritable : Bool) (pgArray : ArrayPtr) :
    Option Outcome :=
  if ARR_NDIM eng.mem pgArray ≠ 1 then
    some (.invalid_argument "Multidimensional arrays not yet supported")
  else if ARR_HASNULL eng.mem pgArray then
    some (.invalid_argument "Arrays with NULLs not yet supported")
  else if ARR_ELEMTYPE eng.mem pgArray = FLOAT8OID then
    let memoryHandle : PGArrayHandle := ⟨pgArray, MemoryController.kGlobal⟩
    if inMemoryIsWritable then
      some (.returned (some (.array ⟨memoryHandle, ARR_DIMS eng.mem pgArray 0⟩)))
    else
      some (.returned (some (.array_const ⟨memoryHandle, ARR_DIMS eng.mem pgArray 0⟩)))
  else none

/-- The statement `switch (inTypeID)` and the final `return` (lines 85-100). -/
def scalarSwitch (eng : Engine) (inTypeID : Oid) (inDatum : Datum) : Outcome :=
  if inTypeID = BOOLOID then
    .returned (some (.bool (eng.DatumGetBool inDatum)))
  else if inTypeID = INT2OID then
    .returned (some (.int16 (wrapSigned 16 (eng.DatumGetInt16 inDatum))))
  else if inTypeID = INT4OID then
    .returned (some (.int32 (wrapSigned 32 (eng.DatumGetInt32 inDatum))))
  else if inTypeID = INT8OID then
    .returned (some (.int64 (wrapSigned 64 (eng.DatumGetInt64 inDatum))))
  else if inTypeID = FLOAT4OID then
    .returned (some (.float (eng.DatumGetFloat4 inDatum % 2 ^ 32)))
  else if inTypeID = FLOAT8OID then
    .returned (some (.double (eng.DatumGetFloat8 inDatum % 2 ^ 64)))
  else .returned none

/-- The message of the assertion of lines 47-48. -/
def assertMsg : String :=
  "An exception occurred while converting a PostgreSQL datum to DBAL object."

/-- `BOOST_ASSERT_MSG(expr, msg)` of `boost/assert.hpp`, which is
`assert((expr) && (msg))`: compiled with assertions it ends the call in an
assertion failure when `expr` is false; compiled with `NDEBUG` it expands to
nothing.  `none` means that control goes on to the next statement. -/
def BOOST_ASSERT_MSG (NDEBUG : Bool) (expr : Bool) (msg : String) : Option Outcome :=
  if NDEBUG then none
  else if expr then none
  else some (.assertion_failed msg)

/-- The statements after the assertion (lines 50-100), run on the local
variables the guarded block leaves.  In the branch `else if (isArray)` the
first statement reads `ARR_NDIM(pgArray)`, through a null pointer when
`pgArray` was never assigned. -/
def afterAssert (eng : Engine) (inMemoryIsWritable : Bool) (inTypeID : Oid)
    (inDatum : Datum) (s : Locals) : Outcome :=
  if s.isTuple then .returned (some (.tuple s.pgTuple))
  else if s.isArray then
    match s.pgArray with
    | none => .null_dereference
    | some pgArray =>
      match arrayBranch eng inMemoryIsWritable pgArray with
      | some out => out
      | none => scalarSwitch eng inTypeID inDatum
  else scalarSwitch eng inTypeID inDatum

/-- `PGAbstractType::DatumToValue` (lines 26-101), in the build given by
`NDEBUG`: true when the file is compiled with `NDEBUG`, false when it is
compiled with assertions. -/
def DatumToValue (eng : Engine) (NDEBUG : Bool) (inMemoryIsWritable : Bool) (inTypeID : Oid)
    (inDatum : Datum) : Outcome :=
  let s := guarded eng inTypeID inDatum Locals.init
  match BOOST_ASSERT_MSG NDEBUG (s.errorOccurred == false) assertMsg with
  | some failure => failure
  | none => afterAssert eng inMemoryIsWritable inTypeID inDatum s

/-! ## A backend to evaluate the function on -/

/-- The array objects of `sampleEngine`, by address: a `float8[3]` at 100, a
2-dimensional `float8` array at 200, a `float8[2]` with a null bitmap at 300,
an `int4[2]` at 400, an empty `float8` array of one dimension at 500 and a
zero-dimensional array at 600. -/
def sampleMemory : Memory := fun p =>
  if p = 100 then ⟨1, 0, FLOAT8OID, [3], [4607182418800017408, 0, 4611686018427387904]⟩
  else if p = 200 then ⟨2, 0, FLOAT8OID, [2, 2], [0, 0, 0, 0]⟩
  else if p = 300 then ⟨1, 24, FLOAT8OID, [2], [0]⟩
  else if p = 400 then ⟨1, 0, INT4OID, [2], [7, 8]⟩
  else if p = 500 then ⟨1, 0, FLOAT8OID, [0], []⟩
  else ⟨0, 0, FLOAT8OID, [], []⟩

/-- A backend with the catalog entries `record` (2249, a row type), `_int4`
(1007) and `_float8` (1022, array types), by-value scalars read from the low
bytes of the datum, pointers passed as the datum itself, and a fault when the
datum of a row or an array is the null pointer or the type is 0. -/
def sampleEngine : Engine where
  type_is_rowtype t := if t = 0 then .error "cache lookup failed for type 0" else .ok (t == 2249)
  type_is_array t := .ok (t == 1007 || t == 1022)
  DatumGetHeapTupleHeader d := if d = NULL then .error "invalid memory access" else .ok d
  DatumGetArrayTypeP d := if d = NULL then .error "invalid memory access" else .ok d
  mem := sampleMemory
  DatumGetBool d := d % 256 != 0
  DatumGetInt16 d := wrapSigned 16 (d % 2 ^ 16)
  DatumGetInt32 d := wrapSigned 32 (d % 2 ^ 32)
  DatumGetInt64 d := wrapSigned 64 (d % 2 ^ 64)
  DatumGetFloat4 d := d % 2 ^ 32
  DatumGetFloat8 d := d % 2 ^ 64

/-- The backend `sampleEngine` with a catalog in which every type is an array
type. -/
def allArraysEngine : Engine :=
  { sampleEngine with type_is_array := fun _ => .ok true }

/-! ## The three ways through the guarded block without a fault -/

/-- A type that is neither a row type nor an array type goes straight to the
`switch` on `inTypeID`. -/
theorem DatumToValue_of_scalar (eng : Engine) (n w : Bool) (t : Oid) (d : Datum)
    (hrow : eng.type_is_rowtype t = .ok false) (harr : eng.type_is_array t = .ok false) :
    DatumToValue eng n w t d = scalarSwitch eng t d := by
  cases n <;>
    simp [DatumToValue, BOOST_ASSERT_MSG, afterAssert, guarded, tryBlock, hrow, harr,
      Locals.init]

/-- A row type whose datum decodes returns the tuple object. -/
theorem DatumToValue_of_rowtype (eng : Engine) (n w : Bool) (t : Oid) (d : Datum) (b : Bool)
    (h : HeapTupleHeader)
    (hrow : eng.type_is_rowtype t = .ok true) (harr : eng.type_is_array t = .ok b)
    (htup : eng.DatumGetHeapTupleHeader d = .ok h) :
    DatumToValue eng n w t d = .returned (some (.tuple h)) := by
  cases n <;>
    simp [DatumToValue, BOOST_ASSERT_MSG, afterAssert, guarded, tryBlock, hrow, harr, htup,
      Locals.init]

/-- An array type that is not a row type and whose datum decodes runs the
array branch, and the `switch` on `inTypeID` when that branch is left at its
end. -/
theorem DatumToValue_of_array (eng : Engine) (n w : Bool) (t : Oid) (d : Datum)
    (p : ArrayPtr)
    (hrow : eng.type_is_rowtype t = .ok false) (harr : eng.type_is_array t = .ok true)
    (hptr : eng.DatumGetArrayTypeP d = .ok p) :
    DatumToValue eng n w t d =
      match arrayBranch eng w p with
      | some out => out
      | none => scalarSwitch eng t d := by
  cases n <;>
    simp [DatumToValue, BOOST_ASSERT_MSG, afterAssert, guarded, tryBlock, hrow, harr, hptr,
      Locals.init]

/-- A value of the range of `int16_t` is stored unchanged. -/
theorem wrapSigned_16 (v : Int) (hlo : -2 ^ 15 ≤ v) (hhi : v < 2 ^ 15) : wrapSigned 16 v = v := by
  simp only [wrapSigned]
  norm_num at hlo hhi ⊢
  omega

/-- A value of the range of `int32_t` is stored unchanged. -/
theorem wrapSigned_32 (v : Int) (hlo : -2 ^ 31 ≤ v) (hhi : v < 2 ^ 31) : wrapSigned 32 v = v := by
  simp only [wrapSigned]
  norm_num at hlo hhi ⊢
  omega

/-- A value of the range of `int64_t` is stored unchanged. -/
theorem wrapSigned_64 (v : Int) (hlo : -2 ^ 63 ≤ v) (hhi : v < 2 ^ 63) : wrapSigned 64 v = v := by
  simp only [wrapSigned]
  norm_num at hlo hhi ⊢
  omega

/-! ## Scalars -/

/-- C1: when the backend classifies the type as neither a row type nor an
array type, the call with `BOOLOID`, `INT2OID`, `INT4OID`, `INT8OID`,
`FLOAT4OID` or `FLOAT8OID` and a datum from which the macro of that kind
extracts the representable value `v` returns a present object of that kind
holding exactly `v`, for either value of `inMemoryIsWritable`, in either
build. -/
theorem DatumToValue_scalar_exact (eng : Engine) (NDEBUG inMemoryIsWritable : Bool)
    (inTypeID : Oid) (inDatum : Datum)
    (hrow : eng.type_is_rowtype inTypeID = .ok false)
    (harr : eng.type_is_array inTypeID = .ok false) :
    (inTypeID = BOOLOID → ∀ v : Bool, eng.DatumGetBool inDatum = v →
      DatumToValue eng NDEBUG inMemoryIsWritable inTypeID inDatum = .returned (some (.bool v))) ∧
    (inTypeID = INT2OID → ∀ v : Int, -2 ^ 15 ≤ v → v < 2 ^ 15 →
      eng.DatumGetInt16 inDatum = v →
      DatumToValue eng NDEBUG inMemoryIsWritable inTypeID inDatum = .returned (some (.int16 v))) ∧
    (inTypeID = INT4OID → ∀ v : Int, -2 ^ 31 ≤ v → v < 2 ^ 31 →
      eng.DatumGetInt32 inDatum = v →
      DatumToValue eng NDEBUG inMemoryIsWritable inTypeID inDatum = .returned (some (.int32 v))) ∧
    (inTypeID = INT8OID → ∀ v : Int, -2 ^ 63 ≤ v → v < 2 ^ 63 →
      eng.DatumGetInt64 inDatum = v →
      DatumToValue eng NDEBUG inMemoryIsWritable inTypeID inDatum = .returned (some (.int64 v))) ∧
    (inTypeID = FLOAT4OID → ∀ v : Nat, v < 2 ^ 32 → eng.DatumGetFloat4 inDatum = v →
      DatumToValue eng NDEBUG inMemoryIsWritable inTypeID inDatum = .returned (some (.float v))) ∧
    (inTypeID = FLOAT8OID → ∀ v : Nat, v < 2 ^ 64 → eng.DatumGetFloat8 inDatum = v →
      DatumToValue eng NDEBUG inMemoryIsWritable inTypeID inDatum = .returned (some (.double v))) := by
  rw [DatumToValue_of_scalar eng NDEBUG inMemoryIsWritable inTypeID inDatum hrow harr]
  refine ⟨?_, ?_, ?_, ?_, ?_, ?_⟩
  · rintro rfl v hv
    simp [scalarSwitch, hv]
  · rintro rfl v hlo hhi hv
    simp [scalarSwitch, hv, wrapSigned_16 v hlo hhi, INT2OID, BOOLOID]
  · rintro rfl v hlo hhi hv
    simp [scalarSwitch, hv, wrapSigned_32 v hlo hhi, INT4OID, INT2OID, BOOLOID]
  · rintro rfl v hlo hhi hv
    simp [scalarSwitch, hv, wrapSigned_64 v hlo hhi, INT8OID, INT4OID, INT2OID, BOOLOID]
  · rintro rfl v hlt hv
    simp only [scalarSwitch, hv, Nat.mod_eq_of_lt hlt]
    simp [FLOAT4OID, INT8OID, INT4OID, INT2OID, BOOLOID]
  · rintro rfl v hlt hv
    simp only [scalarSwitch, hv, Nat.mod_eq_of_lt hlt]
    simp [FLOAT8OID, FLOAT4OID, INT8OID, INT4OID, INT2OID, BOOLOID]

/-- C1, at a concrete input: on `sampleEngine` the `int2` datum `65535` is
converted to the 16-bit integer `-1`. -/
theorem DatumToValue_scalar_exact_witness :
    sampleEngine.type_is_rowtype INT2OID = .ok false ∧
    sampleEngine.type_is_array INT2OID = .ok false ∧
    sampleEngine.DatumGetInt16 65535 = -1 ∧
    DatumToValue sampleEngine true true INT2OID 65535 = .returned (some (.int16 (-1))) :=
  ⟨rfl, rfl, by decide,
    (DatumToValue_scalar_exact sampleEngine true true INT2OID 65535 rfl rfl).2.1
      rfl (-1) (by decide) (by decide) (by decide)⟩

/-! ## Arrays -/

/-- C2: for a type the backend classifies as an array type and not a row
type, and a datum decoded to a one-dimensional array without null bitmap,
with element type `FLOAT8OID` and declared extent `N`, the call returns a
present array object whose view has exactly `N` elements: an `Array<double>`
when `inMemoryIsWritable` is true, an `Array_const<double>` when it is
false; in either build. -/
theorem DatumToValue_float8_array (eng : Engine) (NDEBUG : Bool) (inTypeID : Oid)
    (inDatum : Datum) (pgArray : ArrayPtr) (N : Nat)
    (hrow : eng.type_is_rowtype inTypeID = .ok false)
    (harr : eng.type_is_array inTypeID = .ok true)
    (hptr : eng.DatumGetArrayTypeP inDatum = .ok pgArray)
    (hndim : ARR_NDIM eng.mem pgArray = 1)
    (hnull : ARR_HASNULL eng.mem pgArray = false)
    (helem : ARR_ELEMTYPE eng.mem pgArray = FLOAT8OID)
    (hdim : (eng.mem pgArray).dims[0]? = some (N : Int)) :
    (∃ a : Array_double,
      DatumToValue eng NDEBUG true inTypeID inDatum = .returned (some (.array a)) ∧
      a.extent = N) ∧
    (∃ a : Array_const_double,
      DatumToValue eng NDEBUG false inTypeID inDatum = .returned (some (.array_const a)) ∧
      a.extent = N) := by
  constructor
  · refine ⟨⟨⟨pgArray, MemoryController.kGlobal⟩, N⟩, ?_, rfl⟩
    rw [DatumToValue_of_array eng NDEBUG true inTypeID inDatum pgArray hrow harr hptr]
    simp [arrayBranch, ARR_DIMS, hndim, hnull, helem, hdim]
  · refine ⟨⟨⟨pgArray, MemoryController.kGlobal⟩, N⟩, ?_, rfl⟩
    rw [DatumToValue_of_array eng NDEBUG false inTypeID inDatum pgArray hrow harr hptr]
    simp [arrayBranch, ARR_DIMS, hndim, hnull, helem, hdim]

/-- C2, at a concrete input: the `float8[3]` at address 100 of
`sampleEngine`. -/
theorem DatumToValue_float8_array_witness :
    (∃ a : Array_double,
      DatumToValue sampleEngine true true 1022 100 = .returned (some (.array a)) ∧
      a.extent = ((3 : Nat) : Int)) ∧
    (∃ a : Array_const_double,
      DatumToValue sampleEngine true false 1022 100 = .returned (some (.array_const a)) ∧
      a.extent = ((3 : Nat) : Int)) :=
  DatumToValue_float8_array sampleEngine true 1022 100 100 3 rfl rfl rfl rfl rfl rfl rfl

/-- C3: for a type the backend classifies as an array type and not a row
type, and a datum decoded to an array whose number of dimensions is not 1,
the call throws `std::invalid_argument`, whatever the element type, the null
bitmap, the extents and `inMemoryIsWritable`; it returns nothing; in either
build. -/
theorem DatumToValue_ndim_rejected (eng : Engine) (NDEBUG inMemoryIsWritable : Bool)
    (inTypeID : Oid) (inDatum : Datum) (pgArray : ArrayPtr)
    (hrow : eng.type_is_rowtype inTypeID = .ok false)
    (harr : eng.type_is_array inTypeID = .ok true)
    (hptr : eng.DatumGetArrayTypeP inDatum = .ok pgArray)
    (hndim : ARR_NDIM eng.mem pgArray ≠ 1) :
    DatumToValue eng NDEBUG inMemoryIsWritable inTypeID inDatum =
      .invalid_argument "Multidimensional arrays not yet supported" ∧
    ∀ r : Option AbstractType,
      DatumToValue eng NDEBUG inMemoryIsWritable inTypeID inDatum ≠ .returned r := by
  have h : DatumToValue eng NDEBUG inMemoryIsWritable inTypeID inDatum =
      .invalid_argument "Multidimensional arrays not yet supported" := by
    rw [DatumToValue_of_array eng NDEBUG inMemoryIsWritable inTypeID inDatum pgArray hrow harr hptr]
    simp [arrayBranch, hndim]
  refine ⟨h, ?_⟩
  intro r hr
  rw [h] at hr
  cases hr

/-- C3, at a concrete input: the 2-dimensional array at address 200 of
`sampleEngine`. -/
theorem DatumToValue_ndim_rejected_witness :
    ARR_NDIM sampleEngine.mem 200 ≠ 1 ∧
    DatumToValue sampleEngine true true 1022 200 =
      .invalid_argument "Multidimensional arrays not yet supported" :=
  ⟨by decide, (DatumToValue_ndim_rejected sampleEngine true true 1022 200 200 rfl rfl rfl
    (by decide)).1⟩

/-- C4: for a type the backend classifies as an array type and not a row
type, and a datum decoded to a one-dimensional array whose null-presence flag
is set, the call throws `std::invalid_argument`, whatever the size, the
element type, `inMemoryIsWritable` and the build. -/
theorem DatumToValue_hasnull_rejected (eng : Engine) (NDEBUG inMemoryIsWritable : Bool)
    (inTypeID : Oid) (inDatum : Datum) (pgArray : ArrayPtr)
    (hrow : eng.type_is_rowtype inTypeID = .ok false)
    (harr : eng.type_is_array inTypeID = .ok true)
    (hptr : eng.DatumGetArrayTypeP inDatum = .ok pgArray)
    (hndim : ARR_NDIM eng.mem pgArray = 1)
    (hnull : ARR_HASNULL eng.mem pgArray = true) :
    DatumToValue eng NDEBUG inMemoryIsWritable inTypeID inDatum =
      .invalid_argument "Arrays with NULLs not yet supported" := by
  rw [DatumToValue_of_array eng NDEBUG inMemoryIsWritable inTypeID inDatum pgArray hrow harr hptr]
  simp [arrayBranch, hndim, hnull]

/-- C4, at a concrete input: the `float8[2]` with a null bitmap at address
300 of `sampleEngine`. -/
theorem DatumToValue_hasnull_rejected_witness :
    ARR_NDIM sampleEngine.mem 300 = 1 ∧ ARR_HASNULL sampleEngine.mem 300 = true ∧
    DatumToValue sampleEngine true false 1022 300 =
      .invalid_argument "Arrays with NULLs not yet supported" :=
  ⟨by decide, by decide,
    DatumToValue_hasnull_rejected sampleEngine true false 1022 300 300 rfl rfl rfl (by decide)
      (by decide)⟩

/-! ## Types the function does not know -/

/-- C5: for a type the backend classifies as neither a row type nor an array
type and that is none of `BOOLOID`, `INT2OID`, `INT4OID`, `INT8OID`,
`FLOAT4OID`, `FLOAT8OID`, the call returns the empty pointer, for every datum
and either value of `inMemoryIsWritable`; it raises nothing; in
either build. -/
theorem DatumToValue_unknown_type (eng : Engine) (NDEBUG inMemoryIsWritable : Bool)
    (inTypeID : Oid) (inDatum : Datum)
    (hrow : eng.type_is_rowtype inTypeID = .ok false)
    (harr : eng.type_is_array inTypeID = .ok false)
    (hbool : inTypeID ≠ BOOLOID) (hint2 : inTypeID ≠ INT2OID) (hint4 : inTypeID ≠ INT4OID)
    (hint8 : inTypeID ≠ INT8OID) (hfloat4 : inTypeID ≠ FLOAT4OID)
    (hfloat8 : inTypeID ≠ FLOAT8OID) :
    DatumToValue eng NDEBUG inMemoryIsWritable inTypeID inDatum = .returned none := by
  rw [DatumToValue_of_scalar eng NDEBUG inMemoryIsWritable inTypeID inDatum hrow harr]
  simp [scalarSwitch, hbool, hint2, hint4, hint8, hfloat4, hfloat8]

/-- C5, at a concrete input: the type 25 (`text`) on `sampleEngine`. -/
theorem DatumToValue_unknown_type_witness :
    sampleEngine.type_is_rowtype 25 = .ok false ∧ sampleEngine.type_is_array 25 = .ok false ∧
    DatumToValue sampleEngine true true 25 12345 = .returned none :=
  ⟨rfl, rfl,
    DatumToValue_unknown_type sampleEngine true true 25 12345 rfl rfl (by decide) (by decide)
      (by decide) (by decide) (by decide) (by decide)⟩

/-- A type the backend classifies as an array type is none of the types it
classifies as not an array type. -/
theorem ne_of_type_is_array (eng : Engine) (t u : Oid)
    (ht : eng.type_is_array t = .ok true) (hu : eng.type_is_array u = .ok false) : t ≠ u := by
  intro h
  rw [h, hu] at ht
  cases ht

/-- A one-dimensional array without null bitmap whose element type is not
`FLOAT8OID` leaves the array branch at its end, and the `switch` on
`inTypeID` runs. -/
theorem DatumToValue_array_fallthrough (eng : Engine) (n w : Bool) (t : Oid) (d : Datum)
    (p : ArrayPtr)
    (hrow : eng.type_is_rowtype t = .ok false) (harr : eng.type_is_array t = .ok true)
    (hptr : eng.DatumGetArrayTypeP d = .ok p)
    (hndim : ARR_NDIM eng.mem p = 1) (hnull : ARR_HASNULL eng.mem p = false)
    (helem : ARR_ELEMTYPE eng.mem p ≠ FLOAT8OID) :
    arrayBranch eng w p = none ∧ DatumToValue eng n w t d = scalarSwitch eng t d := by
  have hbranch : arrayBranch eng w p = none := by
    simp [arrayBranch, hndim, hnull, helem]
  refine ⟨hbranch, ?_⟩
  rw [DatumToValue_of_array eng n w t d p hrow harr hptr, hbranch]

/-- C6: on a backend that classifies none of `BOOLOID`, `INT2OID`, `INT4OID`,
`INT8OID`, `FLOAT4OID`, `FLOAT8OID` as an array type (PostgreSQL's
`type_is_array` holds of variable-length types only), for every type
identifier the backend classifies as an array type and not a row type and a
datum decoded to a one-dimensional array without null bitmap whose element
type is not `FLOAT8OID`, the array branch matches nothing and the call
returns the empty pointer: no object of any class is built, in either
build. -/
theorem DatumToValue_other_elemtype (eng : Engine) (NDEBUG inMemoryIsWritable : Bool)
    (inTypeID : Oid) (inDatum : Datum) (pgArray : ArrayPtr)
    (hbool : eng.type_is_array BOOLOID = .ok false)
    (hint2 : eng.type_is_array INT2OID = .ok false)
    (hint4 : eng.type_is_array INT4OID = .ok false)
    (hint8 : eng.type_is_array INT8OID = .ok false)
    (hfloat4 : eng.type_is_array FLOAT4OID = .ok false)
    (hfloat8 : eng.type_is_array FLOAT8OID = .ok false)
    (hrow : eng.type_is_rowtype inTypeID = .ok false)
    (harr : eng.type_is_array inTypeID = .ok true)
    (hptr : eng.DatumGetArrayTypeP inDatum = .ok pgArray)
    (hndim : ARR_NDIM eng.mem pgArray = 1)
    (hnull : ARR_HASNULL eng.mem pgArray = false)
    (helem : ARR_ELEMTYPE eng.mem pgArray ≠ FLOAT8OID) :
    arrayBranch eng inMemoryIsWritable pgArray = none ∧
    DatumToValue eng NDEBUG inMemoryIsWritable inTypeID inDatum = .returned none ∧
    ∀ obj : AbstractType,
      DatumToValue eng NDEBUG inMemoryIsWritable inTypeID inDatum ≠ .returned (some obj) := by
  obtain ⟨hbranch, hcall⟩ := DatumToValue_array_fallthrough eng NDEBUG inMemoryIsWritable
    inTypeID inDatum pgArray hrow harr hptr hndim hnull helem
  have hnone : DatumToValue eng NDEBUG inMemoryIsWritable inTypeID inDatum = .returned none := by
    rw [hcall]
    simp [scalarSwitch, ne_of_type_is_array eng inTypeID BOOLOID harr hbool,
      ne_of_type_is_array eng inTypeID INT2OID harr hint2,
      ne_of_type_is_array eng inTypeID INT4OID harr hint4,
      ne_of_type_is_array eng inTypeID INT8OID harr hint8,
      ne_of_type_is_array eng inTypeID FLOAT4OID harr hfloat4,
      ne_of_type_is_array eng inTypeID FLOAT8OID harr hfloat8]
  refine ⟨hbranch, hnone, ?_⟩
  intro obj hobj
  rw [hnone] at hobj
  cases hobj

/-- C6, at a concrete input: the `int4[2]` at address 400 of `sampleEngine`,
of type `_int4` (1007), in the build with `NDEBUG`. -/
theorem DatumToValue_other_elemtype_witness :
    ARR_NDIM sampleEngine.mem 400 = 1 ∧ ARR_HASNULL sampleEngine.mem 400 = false ∧
    ARR_ELEMTYPE sampleEngine.mem 400 ≠ FLOAT8OID ∧
    DatumToValue sampleEngine true true 1007 400 = .returned none :=
  ⟨by decide, by decide, by decide,
    (DatumToValue_other_elemtype sampleEngine true true 1007 400 400 rfl rfl rfl rfl rfl rfl
      rfl rfl rfl (by decide) (by decide) (by decide)).2.1⟩

/-! ## Faults of the backend -/

/-- In a build with assertions, when one of the backend calls of the guarded
block raises a fault (`type_is_rowtype`, or `type_is_array` after it, or the
decoding of the datum as a tuple header or as an array after both), the fault
is caught by the block, `errorOccurred` is set and the call ends in the
assertion failure of lines 47-48. -/
theorem DatumToValue_fault_assertions_enabled (eng : Engine) (w : Bool) (t : Oid)
    (d : Datum) (f : Fault)
    (hfault : eng.type_is_rowtype t = .error f ∨
      (∃ r : Bool, eng.type_is_rowtype t = .ok r ∧ eng.type_is_array t = .error f) ∨
      (∃ a : Bool, eng.type_is_rowtype t = .ok true ∧ eng.type_is_array t = .ok a ∧
        eng.DatumGetHeapTupleHeader d = .error f) ∨
      (eng.type_is_rowtype t = .ok false ∧ eng.type_is_array t = .ok true ∧
        eng.DatumGetArrayTypeP d = .error f)) :
    (tryBlock eng t d Locals.init).2 = some f ∧
    (guarded eng t d Locals.init).errorOccurred = true ∧
    DatumToValue eng false w t d = .assertion_failed assertMsg := by
  have hblock : (tryBlock eng t d Locals.init).2 = some f := by
    rcases hfault with h | ⟨r, h1, h2⟩ | ⟨a, h1, h2, h3⟩ | ⟨h1, h2, h3⟩
    · simp [tryBlock, h]
    · simp [tryBlock, h1, h2]
    · simp [tryBlock, h1, h2, h3]
    · simp [tryBlock, h1, h2, h3]
  have hflag : (guarded eng t d Locals.init).errorOccurred = true := by
    unfold guarded
    generalize tryBlock eng t d Locals.init = res at hblock
    obtain ⟨s1, o⟩ := res
    simp only at hblock
    subst hblock
    rfl
  refine ⟨hblock, hflag, ?_⟩
  simp [DatumToValue, BOOST_ASSERT_MSG, hflag]

/-- In a build with `NDEBUG` the assertion of lines 47-48 is compiled out, and
after a caught fault the call runs lines 50-100 on the local variables as the
fault left them: a fault of `type_is_rowtype` leads to the `switch` on
`inTypeID`; a fault of `type_is_array` to the tuple object over the null
header for a row type and to the `switch` otherwise; a fault of the decoding
of a tuple header to the tuple object over the null header; a fault of the
decoding of an array to a read through the null `pgArray`. -/
theorem DatumToValue_fault_assertions_disabled (eng : Engine) (w : Bool) (t : Oid)
    (d : Datum) (f : Fault) :
    (eng.type_is_rowtype t = .error f →
      DatumToValue eng true w t d = scalarSwitch eng t d) ∧
    (eng.type_is_rowtype t = .ok false → eng.type_is_array t = .error f →
      DatumToValue eng true w t d = scalarSwitch eng t d) ∧
    (eng.type_is_rowtype t = .ok true → eng.type_is_array t = .error f →
      DatumToValue eng true w t d = .returned (some (.tuple NULL))) ∧
    (∀ a : Bool, eng.type_is_rowtype t = .ok true → eng.type_is_array t = .ok a →
      eng.DatumGetHeapTupleHeader d = .error f →
      DatumToValue eng true w t d = .returned (some (.tuple NULL))) ∧
    (eng.type_is_rowtype t = .ok false → eng.type_is_array t = .ok true →
      eng.DatumGetArrayTypeP d = .error f →
      DatumToValue eng true w t d = .null_dereference) := by
  refine ⟨?_, ?_, ?_, ?_, ?_⟩
  · intro h1
    simp [DatumToValue, BOOST_ASSERT_MSG, afterAssert, guarded, tryBlock, h1, Locals.init]
  · intro h1 h2
    simp [DatumToValue, BOOST_ASSERT_MSG, afterAssert, guarded, tryBlock, h1, h2, Locals.init]
  · intro h1 h2
    simp [DatumToValue, BOOST_ASSERT_MSG, afterAssert, guarded, tryBlock, h1, h2, Locals.init]
  · intro a h1 h2 h3
    simp [DatumToValue, BOOST_ASSERT_MSG, afterAssert, guarded, tryBlock, h1, h2, h3,
      Locals.init]
  · intro h1 h2 h3
    simp [DatumToValue, BOOST_ASSERT_MSG, afterAssert, guarded, tryBlock, h1, h2, h3,
      Locals.init]

/-- C7 fails in a build with `NDEBUG`.  On `sampleEngine` the decoding of the
datum 0 raises a fault, as a tuple header (type 2249) and as an array (type
1022), and `type_is_rowtype` raises one on the type 0.  Compiled with
assertions the three calls end in the assertion failure, as the claim says;
compiled with `NDEBUG` the first returns a tuple object over the null header,
the second reads through the null `pgArray`, and the third returns the empty
pointer. -/
theorem DatumToValue_fault_NDEBUG :
    sampleEngine.type_is_rowtype 2249 = .ok true ∧
    sampleEngine.DatumGetHeapTupleHeader 0 = .error "invalid memory access" ∧
    sampleEngine.type_is_array 1022 = .ok true ∧
    sampleEngine.DatumGetArrayTypeP 0 = .error "invalid memory access" ∧
    sampleEngine.type_is_rowtype 0 = .error "cache lookup failed for type 0" ∧
    DatumToValue sampleEngine false true 2249 0 = .assertion_failed assertMsg ∧
    DatumToValue sampleEngine false true 1022 0 = .assertion_failed assertMsg ∧
    DatumToValue sampleEngine false true 0 0 = .assertion_failed assertMsg ∧
    DatumToValue sampleEngine true true 2249 0 = .returned (some (.tuple NULL)) ∧
    DatumToValue sampleEngine true true 1022 0 = .null_dereference ∧
    DatumToValue sampleEngine true true 0 0 = .returned none := by
  refine ⟨rfl, rfl, rfl, rfl, rfl, ?_, ?_, ?_, ?_, ?_, ?_⟩ <;> decide

/-! ## Row types -/

/-- C8: when the backend classifies the type as a row type, whatever it
answers on the type being an array, the call returns a present
`PGType<HeapTupleHeader>` holding exactly the tuple header decoded from the
datum, for every type identifier, every content of the backend memory and
either value of `inMemoryIsWritable`; it throws no `std::invalid_argument`;
in either build. -/
theorem DatumToValue_rowtype (eng : Engine) (NDEBUG inMemoryIsWritable : Bool)
    (inTypeID : Oid) (inDatum : Datum) (isArray : Bool) (pgTuple : HeapTupleHeader)
    (hrow : eng.type_is_rowtype inTypeID = .ok true)
    (harr : eng.type_is_array inTypeID = .ok isArray)
    (htup : eng.DatumGetHeapTupleHeader inDatum = .ok pgTuple) :
    DatumToValue eng NDEBUG inMemoryIsWritable inTypeID inDatum = .returned (some (.tuple pgTuple)) ∧
    (∀ what : String,
      DatumToValue eng NDEBUG inMemoryIsWritable inTypeID inDatum ≠ .invalid_argument what) := by
  have h := DatumToValue_of_rowtype eng NDEBUG inMemoryIsWritable inTypeID inDatum isArray pgTuple
    hrow harr htup
  refine ⟨h, ?_⟩
  intro what hw
  rw [h] at hw
  cases hw

/-- C8, at a concrete input: on the backend of `allArraysEngine` with every
type a row type as well, the type 1022 is both, the datum 200 is the address
of a 2-dimensional array, and the call returns the tuple object. -/
theorem DatumToValue_rowtype_witness :
    DatumToValue { allArraysEngine with type_is_rowtype := fun _ => .ok true } true false 1022
        200 =
      .returned (some (.tuple 200)) :=
  (DatumToValue_rowtype { allArraysEngine with type_is_rowtype := fun _ => .ok true } true
    false 1022 200 true 200 rfl rfl rfl).1

/-! ## The flag `inMemoryIsWritable` -/

/-- C9: for a type the backend classifies as a row type, or as neither a row
type nor an array type, and every datum, the call with `inMemoryIsWritable`
true and the call with it false have the same outcome, in either build, also
when a backend call of the guarded block raises a fault. -/
theorem DatumToValue_writable_ignored (eng : Engine) (NDEBUG : Bool) (inTypeID : Oid)
    (inDatum : Datum)
    (hkind : eng.type_is_rowtype inTypeID = .ok true ∨
      (eng.type_is_rowtype inTypeID = .ok false ∧ eng.type_is_array inTypeID = .ok false)) :
    DatumToValue eng NDEBUG true inTypeID inDatum =
      DatumToValue eng NDEBUG false inTypeID inDatum := by
  rcases hkind with hrow | ⟨hrow, harr⟩
  · cases NDEBUG <;>
      cases harr : eng.type_is_array inTypeID <;>
      cases htup : eng.DatumGetHeapTupleHeader inDatum <;>
      simp [DatumToValue, BOOST_ASSERT_MSG, afterAssert, guarded, tryBlock, hrow, harr, htup,
        Locals.init]
  · rw [DatumToValue_of_scalar eng NDEBUG true inTypeID inDatum hrow harr,
      DatumToValue_of_scalar eng NDEBUG false inTypeID inDatum hrow harr]

/-- C9, at a concrete input: the `float8` datum `4607182418800017408` (the
bit pattern of 1.0) on `sampleEngine`. -/
theorem DatumToValue_writable_ignored_witness :
    DatumToValue sampleEngine true true FLOAT8OID 4607182418800017408 =
      DatumToValue sampleEngine true false FLOAT8OID 4607182418800017408 :=
  DatumToValue_writable_ignored sampleEngine true FLOAT8OID 4607182418800017408
    (Or.inr ⟨rfl, rfl⟩)

/-! ## Aliasing of the array buffer -/

/-- C10: in the supported array case (one dimension, no null bitmap,
`FLOAT8OID` elements) the handle of the returned view, writable or read-only,
is built over the array object decoded from the datum, with scope `kGlobal`;
a write to element `i` through the writable view changes element `i` of the
buffer of that object in backend memory and nothing else, the header of the
object included; in either build. -/
theorem DatumToValue_array_aliases (eng : Engine) (NDEBUG : Bool) (inTypeID : Oid)
    (inDatum : Datum) (pgArray : ArrayPtr)
    (hrow : eng.type_is_rowtype inTypeID = .ok false)
    (harr : eng.type_is_array inTypeID = .ok true)
    (hptr : eng.DatumGetArrayTypeP inDatum = .ok pgArray)
    (hndim : ARR_NDIM eng.mem pgArray = 1)
    (hnull : ARR_HASNULL eng.mem pgArray = false)
    (helem : ARR_ELEMTYPE eng.mem pgArray = FLOAT8OID) :
    (∃ c : Array_const_double,
      DatumToValue eng NDEBUG false inTypeID inDatum = .returned (some (.array_const c)) ∧
      c.memoryHandle = ⟨pgArray, MemoryController.kGlobal⟩) ∧
    (∃ a : Array_double,
      DatumToValue eng NDEBUG true inTypeID inDatum = .returned (some (.array a)) ∧
      a.memoryHandle = ⟨pgArray, MemoryController.kGlobal⟩ ∧
      ∀ (i x : Nat), (i : Int) < a.extent →
        ∃ m : Memory, a.write i x eng.mem = some m ∧
          (m pgArray).data = (eng.mem pgArray).data.set i x ∧
          (m pgArray).ndim = (eng.mem pgArray).ndim ∧
          (m pgArray).dataoffset = (eng.mem pgArray).dataoffset ∧
          (m pgArray).elemtype = (eng.mem pgArray).elemtype ∧
          (m pgArray).dims = (eng.mem pgArray).dims ∧
          ∀ q : ArrayPtr, q ≠ pgArray → m q = eng.mem q) := by
  constructor
  · refine ⟨⟨⟨pgArray, MemoryController.kGlobal⟩, ARR_DIMS eng.mem pgArray 0⟩, ?_, rfl⟩
    rw [DatumToValue_of_array eng NDEBUG false inTypeID inDatum pgArray hrow harr hptr]
    simp [arrayBranch, hndim, hnull, helem]
  · refine ⟨⟨⟨pgArray, MemoryController.kGlobal⟩, ARR_DIMS eng.mem pgArray 0⟩, ?_, rfl, ?_⟩
    · rw [DatumToValue_of_array eng NDEBUG true inTypeID inDatum pgArray hrow harr hptr]
      simp [arrayBranch, hndim, hnull, helem]
    · intro i x hi
      refine ⟨_, if_pos hi, ?_, ?_, ?_, ?_, ?_, ?_⟩
      · simp
      · simp
      · simp
      · simp
      · simp
      · intro q hq
        simp [hq]

/-- C10, at a concrete input: the `float8[3]` at address 100 of
`sampleEngine`; writing the bit pattern 5 to element 1 through the writable
view changes the buffer at address 100. -/
theorem DatumToValue_array_aliases_witness :
    ∃ a : Array_double,
      DatumToValue sampleEngine true true 1022 100 = .returned (some (.array a)) ∧
      a.memoryHandle = ⟨100, MemoryController.kGlobal⟩ ∧
      ∃ m : Memory, a.write 1 5 sampleEngine.mem = some m ∧
        (m 100).data = [4607182418800017408, 5, 4611686018427387904] := by
  obtain ⟨a, hret, hhandle, hwrite⟩ :=
    (DatumToValue_array_aliases sampleEngine true 1022 100 100 rfl rfl rfl (by decide) (by decide)
      (by decide)).2
  have hext : a.extent = 3 := by
    have h3 : DatumToValue sampleEngine true true 1022 100 =
        .returned (some (.array ⟨⟨100, MemoryController.kGlobal⟩, 3⟩)) := by decide
    rw [hret] at h3
    injection h3 with h3
    injection h3 with h3
    injection h3 with h3
    rw [h3]
  obtain ⟨m, hm, hdata, -⟩ := hwrite 1 5 (by rw [hext]; decide)
  exact ⟨a, hret, hhandle, m, hm, by rw [hdata]; decide⟩

/-! ## When the call throws -/

/-- The `switch` on `inTypeID` always ends in a `return`. -/
theorem scalarSwitch_returned (eng : Engine) (t : Oid) (d : Datum) :
    ∃ res : Option AbstractType, scalarSwitch eng t d = .returned res := by
  unfold scalarSwitch
  split_ifs <;> exact ⟨_, rfl⟩

/-- The `switch` on `inTypeID` throws nothing. -/
theorem scalarSwitch_ne_invalid_argument (eng : Engine) (t : Oid) (d : Datum) (what : String) :
    scalarSwitch eng t d ≠ .invalid_argument what := by
  obtain ⟨res, hres⟩ := scalarSwitch_returned eng t d
  rw [hres]
  intro h
  cases h

/-- C12: when no backend call of the guarded block raises a fault, the call
throws `std::invalid_argument` if and only if the backend classifies the type
as an array type and not as a row type and the decoded array has a number of
dimensions other than 1 or has its null-presence flag set; in every other
case it returns, an object or the empty pointer; in either build. -/
theorem DatumToValue_throws_iff (eng : Engine) (NDEBUG inMemoryIsWritable : Bool)
    (inTypeID : Oid) (inDatum : Datum) (isTuple isArray : Bool) (pgArray : ArrayPtr)
    (hrow : eng.type_is_rowtype inTypeID = .ok isTuple)
    (harr : eng.type_is_array inTypeID = .ok isArray)
    (htup : isTuple = true →
      ∃ h : HeapTupleHeader, eng.DatumGetHeapTupleHeader inDatum = .ok h)
    (hptr : isTuple = false → isArray = true → eng.DatumGetArrayTypeP inDatum = .ok pgArray) :
    ((∃ what : String,
        DatumToValue eng NDEBUG inMemoryIsWritable inTypeID inDatum = .invalid_argument what) ↔
      (isTuple = false ∧ isArray = true ∧
        (ARR_NDIM eng.mem pgArray ≠ 1 ∨ ARR_HASNULL eng.mem pgArray = true))) ∧
    (¬ (isTuple = false ∧ isArray = true ∧
        (ARR_NDIM eng.mem pgArray ≠ 1 ∨ ARR_HASNULL eng.mem pgArray = true)) →
      ∃ res : Option AbstractType,
        DatumToValue eng NDEBUG inMemoryIsWritable inTypeID inDatum = .returned res) := by
  cases isTuple with
  | true =>
    obtain ⟨h, hh⟩ := htup rfl
    rw [DatumToValue_of_rowtype eng NDEBUG inMemoryIsWritable inTypeID inDatum isArray h hrow harr hh]
    simp
  | false =>
    cases isArray with
    | false =>
      rw [DatumToValue_of_scalar eng NDEBUG inMemoryIsWritable inTypeID inDatum hrow harr]
      obtain ⟨res, hres⟩ := scalarSwitch_returned eng inTypeID inDatum
      rw [hres]
      simp
    | true =>
      rw [DatumToValue_of_array eng NDEBUG inMemoryIsWritable inTypeID inDatum pgArray hrow harr
        (hptr rfl rfl)]
      obtain ⟨res, hres⟩ := scalarSwitch_returned eng inTypeID inDatum
      by_cases hndim : ARR_NDIM eng.mem pgArray = 1
      · cases hnull : ARR_HASNULL eng.mem pgArray with
        | true => simp [arrayBranch, hndim, hnull]
        | false =>
          by_cases helem : ARR_ELEMTYPE eng.mem pgArray = FLOAT8OID
          · cases inMemoryIsWritable <;> simp [arrayBranch, hndim, hnull, helem]
          · simp [arrayBranch, hndim, hnull, helem, hres]
      · simp [arrayBranch, hndim]

/-- C12, at a concrete input: the 2-dimensional array at address 200 of
`sampleEngine` makes the call throw. -/
theorem DatumToValue_throws_iff_witness :
    ∃ what : String, DatumToValue sampleEngine true false 1022 200 = .invalid_argument what :=
  (DatumToValue_throws_iff sampleEngine true false 1022 200 false true 200 rfl rfl
    (fun h => Bool.noConfusion h) (fun _ _ => rfl)).1.mpr
    ⟨rfl, rfl, Or.inl (by decide)⟩

/-- C13: the test of the number of dimensions comes before the test of the
null-presence flag.  An array with a number of dimensions other than 1 and
the flag set makes the call throw "Multidimensional arrays not yet
supported", not "Arrays with NULLs not yet supported"; and whenever a call
throws the latter, the type is an array type and not a row type and the
decoded array has one dimension and the flag set; in either build. -/
theorem DatumToValue_ndim_before_hasnull (eng : Engine) (NDEBUG inMemoryIsWritable : Bool)
    (inTypeID : Oid) (inDatum : Datum) :
    (∀ pgArray : ArrayPtr,
      eng.type_is_rowtype inTypeID = .ok false →
      eng.type_is_array inTypeID = .ok true →
      eng.DatumGetArrayTypeP inDatum = .ok pgArray →
      ARR_NDIM eng.mem pgArray ≠ 1 →
      ARR_HASNULL eng.mem pgArray = true →
      DatumToValue eng NDEBUG inMemoryIsWritable inTypeID inDatum =
        .invalid_argument "Multidimensional arrays not yet supported" ∧
      DatumToValue eng NDEBUG inMemoryIsWritable inTypeID inDatum ≠
        .invalid_argument "Arrays with NULLs not yet supported") ∧
    (DatumToValue eng NDEBUG inMemoryIsWritable inTypeID inDatum =
        .invalid_argument "Arrays with NULLs not yet supported" →
      ∃ pgArray : ArrayPtr,
        eng.type_is_rowtype inTypeID = .ok false ∧
        eng.type_is_array inTypeID = .ok true ∧
        eng.DatumGetArrayTypeP inDatum = .ok pgArray ∧
        ARR_NDIM eng.mem pgArray = 1 ∧
        ARR_HASNULL eng.mem pgArray = true) := by
  constructor
  · intro pgArray hrow harr hptr hndim _
    have h : DatumToValue eng NDEBUG inMemoryIsWritable inTypeID inDatum =
        .invalid_argument "Multidimensional arrays not yet supported" := by
      rw [DatumToValue_of_array eng NDEBUG inMemoryIsWritable inTypeID inDatum pgArray hrow harr hptr]
      simp [arrayBranch, hndim]
    refine ⟨h, ?_⟩
    rw [h]
    decide
  · intro hthrow
    have hsw := scalarSwitch_ne_invalid_argument eng inTypeID inDatum
      "Arrays with NULLs not yet supported"
    cases hrow : eng.type_is_rowtype inTypeID with
    | error f =>
      cases NDEBUG <;>
        simp [DatumToValue, BOOST_ASSERT_MSG, afterAssert, guarded, tryBlock, hrow, hsw,
          Locals.init] at hthrow
    | ok r =>
      cases harr : eng.type_is_array inTypeID with
      | error f =>
        cases NDEBUG <;> cases r <;>
          simp [DatumToValue, BOOST_ASSERT_MSG, afterAssert, guarded, tryBlock, hrow, harr,
            hsw, Locals.init] at hthrow
      | ok a =>
        cases r with
        | true =>
          cases NDEBUG <;> cases htup : eng.DatumGetHeapTupleHeader inDatum <;>
            simp [DatumToValue, BOOST_ASSERT_MSG, afterAssert, guarded, tryBlock, hrow, harr,
              htup, Locals.init] at hthrow
        | false =>
          cases a with
          | false =>
            rw [DatumToValue_of_scalar eng NDEBUG inMemoryIsWritable inTypeID inDatum hrow harr]
              at hthrow
            exact absurd hthrow hsw
          | true =>
            cases hptr : eng.DatumGetArrayTypeP inDatum with
            | error f =>
              cases NDEBUG <;>
                simp [DatumToValue, BOOST_ASSERT_MSG, afterAssert, guarded, tryBlock, hrow,
                  harr, hptr, Locals.init] at hthrow
            | ok p =>
              rw [DatumToValue_of_array eng NDEBUG inMemoryIsWritable inTypeID inDatum p hrow
                harr hptr] at hthrow
              refine ⟨p, rfl, rfl, rfl, ?_⟩
              by_cases hndim : ARR_NDIM eng.mem p = 1
              · cases hnull : ARR_HASNULL eng.mem p with
                | true => exact ⟨hndim, rfl⟩
                | false =>
                  by_cases helem : ARR_ELEMTYPE eng.mem p = FLOAT8OID
                  · cases inMemoryIsWritable <;>
                      simp [arrayBranch, hndim, hnull, helem] at hthrow
                  · simp [arrayBranch, hndim, hnull, helem, hsw] at hthrow
              · simp [arrayBranch, hndim] at hthrow

/-- C13, at a concrete input: a 2-dimensional array with a null bitmap, on
the backend `sampleEngine` with that object at every address. -/
theorem DatumToValue_ndim_before_hasnull_witness :
    DatumToValue { sampleEngine with mem := fun _ => ⟨2, 32, FLOAT8OID, [2, 2], [0, 0, 0]⟩ }
        true true 1022 700 =
      .invalid_argument "Multidimensional arrays not yet supported" ∧
    DatumToValue { sampleEngine with mem := fun _ => ⟨2, 32, FLOAT8OID, [2, 2], [0, 0, 0]⟩ }
        true true 1022 700 ≠
      .invalid_argument "Arrays with NULLs not yet supported" :=
  (DatumToValue_ndim_before_hasnull
    { sampleEngine with mem := fun _ => ⟨2, 32, FLOAT8OID, [2, 2], [0, 0, 0]⟩ }
    true true 1022 700).1 700 rfl rfl rfl (by decide) (by decide)

end dbconnector

end madlib
